import Mathlib

/-!  Verification model of the two AWS Lambda handlers of this repository:
the intake handler (src/lambda/api/app.py) and the transform handler
(src/lambda/etl/app.py).  Python values parsed from JSON are modelled by an
inductive JSON value type; the external collaborators (base64 decoding,
json.loads, S3 get_object) are parameters of the handlers; storage side
effects are returned explicitly as lists of writes.  A handler outcome of
`none` models an unhandled Python exception. -/

/-- JSON values as produced by Python's json.loads.  Numbers are modelled as
integers (no behaviour verified here involves fractional literals).  Object
fields keep the insertion order of the underlying Python dict. -/
inductive Json where
  | null : Json
  | bool (b : Bool) : Json
  | num (n : Int) : Json
  | str (s : String) : Json
  | arr (elems : List Json) : Json
  | obj (fields : List (String × Json)) : Json

/-- Field lookup in a JSON object's field list, modelling Python dict
indexing (dict keys are unique, so the first match suffices). -/
def getField : List (String × Json) → String → Option Json
  | [], _ => none
  | (k, v) :: rest, key => if k = key then some v else getField rest key

/-- Lower-case hexadecimal digit, as used by Python's json escapes. -/
def hexDigit (n : Nat) : Char :=
  if n < 10 then Char.ofNat (48 + n) else Char.ofNat (87 + n % 16)

/-- Four lower-case hex digits. -/
def hex4 (n : Nat) : String :=
  String.mk [hexDigit (n / 4096 % 16), hexDigit (n / 256 % 16),
             hexDigit (n / 16 % 16), hexDigit (n % 16)]

/-- Escape one character the way Python json.dumps (ensure_ascii=True)
does: short escapes for the usual control characters, Basic
Multilingual Plane characters outside 0x20..0x7e as a single uXXXX escape,
astral characters as a surrogate pair. -/
def jsonEscapeChar (c : Char) : String :=
  if c = '"' then "\\\""
  else if c = '\\' then "\\\\"
  else if c = '\n' then "\\n"
  else if c = '\r' then "\\r"
  else if c = '\t' then "\\t"
  else if c.toNat = 8 then "\\b"
  else if c.toNat = 12 then "\\f"
  else if c.toNat < 32 then "\\u" ++ hex4 c.toNat
  else if c.toNat < 127 then String.singleton c
  else if c.toNat < 65536 then "\\u" ++ hex4 c.toNat
  else
    let v := c.toNat - 65536
    "\\u" ++ hex4 (55296 + v / 1024) ++ "\\u" ++ hex4 (56320 + v % 1024)

/-- Python json.dumps of a string: double quotes around the escaped text. -/
def jsonQuote (s : String) : String :=
  "\"" ++ String.join (s.data.map jsonEscapeChar) ++ "\""

mutual

/-- Python json.dumps with its default separators: elements joined by a
comma and a space, keys and values joined by a colon and a space. -/
def Json.dumps : Json → String
  | .null => "null"
  | .bool true => "true"
  | .bool false => "false"
  | .num n => toString n
  | .str s => jsonQuote s
  | .arr xs => "[" ++ Json.dumpsElems xs ++ "]"
  | .obj fs => "\x7b" ++ Json.dumpsFields fs ++ "\x7d"

/-- Serialise the elements of a JSON array, comma-space separated. -/
def Json.dumpsElems : List Json → String
  | [] => ""
  | [x] => Json.dumps x
  | x :: y :: rest => Json.dumps x ++ ", " ++ Json.dumpsElems (y :: rest)

/-- Serialise the fields of a JSON object, comma-space separated. -/
def Json.dumpsFields : List (String × Json) → String
  | [] => ""
  | [(k, v)] => jsonQuote k ++ ": " ++ Json.dumps v
  | (k, v) :: f :: rest =>
      jsonQuote k ++ ": " ++ Json.dumps v ++ ", " ++ Json.dumpsFields (f :: rest)

end

mutual

/-- Python repr() of a value obtained from parsed JSON, used only through
pyStr below when a non-string value meets an f-string.  Exact for the
scalar cases (None, booleans, integers); for strings and containers it
renders the single-quoted display form without re-escaping, which is exact
for the quote-free strings that appear in this development. -/
def pyRepr : Json → String
  | .null => "None"
  | .bool true => "True"
  | .bool false => "False"
  | .num n => toString n
  | .str s => "'" ++ s ++ "'"
  | .arr xs => "[" ++ pyReprElems xs ++ "]"
  | .obj fs => "\x7b" ++ pyReprFields fs ++ "\x7d"

/-- repr of the elements of a Python list. -/
def pyReprElems : List Json → String
  | [] => ""
  | [x] => pyRepr x
  | x :: y :: rest => pyRepr x ++ ", " ++ pyReprElems (y :: rest)

/-- repr of the items of a Python dict. -/
def pyReprFields : List (String × Json) → String
  | [] => ""
  | [(k, v)] => "'" ++ k ++ "': " ++ pyRepr v
  | (k, v) :: f :: rest =>
      "'" ++ k ++ "': " ++ pyRepr v ++ ", " ++ pyReprFields (f :: rest)

end

/-- Python str() of a value obtained from parsed JSON, as applied by
f-string interpolation: the identity on strings, repr-like otherwise. -/
def pyStr : Json → String
  | .str s => s
  | j => pyRepr j

/-- Zero-padded two-digit decimal rendering. -/
def pad2 (n : Nat) : String :=
  if n < 10 then "0" ++ toString n else toString n

/-- Zero-padded four-digit decimal rendering. -/
def pad4 (n : Nat) : String :=
  if n < 10 then "000" ++ toString n
  else if n < 100 then "00" ++ toString n
  else if n < 1000 then "0" ++ toString n
  else toString n

/-- Zero-padded six-digit decimal rendering (microseconds). -/
def pad6 (n : Nat) : String :=
  if n < 10 then "00000" ++ toString n
  else if n < 100 then "0000" ++ toString n
  else if n < 1000 then "000" ++ toString n
  else if n < 10000 then "00" ++ toString n
  else if n < 100000 then "0" ++ toString n
  else toString n

/-- The broken-down UTC wall-clock time captured by
datetime.now(timezone.utc) in the intake handler. -/
structure UTCDateTime where
  year : Nat
  month : Nat
  day : Nat
  hour : Nat
  minute : Nat
  second : Nat
  microsecond : Nat

/-- Days from the Unix epoch to the given civil date (proleptic Gregorian
calendar, Hinnant's algorithm), as used by the timestamp computation. -/
def daysFromCivil (y m d : Int) : Int :=
  let y2 : Int := if m ≤ 2 then y - 1 else y
  let era : Int := (if 0 ≤ y2 then y2 else y2 - 399) / 400
  let yoe : Int := y2 - era * 400
  let mp : Int := (m + 9) % 12
  let doy : Int := (153 * mp + 2) / 5 + d - 1
  let doe : Int := yoe * 365 + yoe / 4 - yoe / 100 + doy
  era * 146097 + doe - 719468

/-- Whole seconds from the Unix epoch to this instant, rounding down
(the floor of Python's datetime.timestamp()). -/
def UTCDateTime.epochFloor (t : UTCDateTime) : Int :=
  daysFromCivil (Int.ofNat t.year) (Int.ofNat t.month) (Int.ofNat t.day) * 86400
    + Int.ofNat t.hour * 3600 + Int.ofNat t.minute * 60 + Int.ofNat t.second

/-- int(t.timestamp()) in Python: truncation toward zero of the
fractional-second timestamp. -/
def UTCDateTime.intTimestamp (t : UTCDateTime) : Int :=
  if t.microsecond = 0 ∨ 0 ≤ t.epochFloor then t.epochFloor else t.epochFloor + 1

/-- str(now.date()) in Python: the ISO calendar date YYYY-MM-DD. -/
def UTCDateTime.dateStr (t : UTCDateTime) : String :=
  pad4 t.year ++ "-" ++ pad2 t.month ++ "-" ++ pad2 t.day

/-- now.isoformat() in Python for a timezone-aware UTC datetime: the date,
a T, the time (with a fractional part only when microsecond is nonzero),
and the +00:00 offset. -/
def UTCDateTime.isoformat (t : UTCDateTime) : String :=
  t.dateStr ++ "T" ++ pad2 t.hour ++ ":" ++ pad2 t.minute ++ ":" ++ pad2 t.second
    ++ (if t.microsecond = 0 then "" else "." ++ pad6 t.microsecond) ++ "+00:00"

/-- Python str.upper() as applied to the HTTP method string (ASCII
case folding, character by character). -/
def pyUpper (s : String) : String :=
  String.mk (s.data.map Char.toUpper)

/-- Does pat occur as a contiguous run anywhere in s?  (Python: pat in s.) -/
def hasSub (pat : List Char) : List Char → Bool
  | [] => pat.isEmpty
  | c :: rest => pat.isPrefixOf (c :: rest) || hasSub pat rest

/-- s.replace(pat, rep, 1) on character lists: rewrite the leftmost
occurrence of pat (if any) to rep and keep everything else. -/
def listReplaceFirst (pat rep : List Char) : List Char → List Char
  | [] => if pat.isEmpty then rep else []
  | c :: rest =>
      if pat.isPrefixOf (c :: rest) then rep ++ (c :: rest).drop pat.length
      else c :: listReplaceFirst pat rep rest

/-- Python's str.replace(old, new, 1): replace only the first occurrence. -/
def pyReplaceFirst (s old new : String) : String :=
  String.mk (listReplaceFirst old.data new.data s.data)

/-- The HTTP-style request consumed by the intake handler: the method taken
from requestContext.http.method (an absent field modelled as none), the
isBase64Encoded flag, and the optional body string. -/
structure IntakeEvent where
  method : Option String
  isBase64Encoded : Bool
  body : Option String

/-- The DynamoDB item built by the intake handler (the dict named item in
src/lambda/api/app.py). -/
structure IndexItem where
  pk : String
  sk : String
  eventId : String
  type : Json
  createdAt : String
  rawS3Key : String
  ttl : Int

/-- One storage side effect: a DynamoDB put_item to the named table, or an
S3 put_object of a serialised body with a content type. -/
inductive StorageWrite where
  | tablePut (table : String) (item : IndexItem)
  | s3Put (bucket : String) (key : String) (body : String) (contentType : String)

/-- The Lambda proxy response dict returned by the intake handler. -/
structure HttpResponse where
  statusCode : Nat
  headers : List (String × String)
  body : String

/-- The headers dict of the resp helper in src/lambda/api/app.py, in its
insertion order. -/
def corsHeaders : List (String × String) :=
  [("content-type", "application/json"),
   ("access-control-allow-origin", "*"),
   ("access-control-allow-methods", "GET,POST,OPTIONS"),
   ("access-control-allow-headers", "content-type,authorization")]

/-- The body argument of the resp helper: the Python call sites pass either
a str or a dict. -/
inductive RespBody where
  | ofStr (v : String)
  | ofJson (v : Json)

/-- The resp helper of src/lambda/api/app.py: fixed status and CORS
headers, the body passed through when it is already a str and serialised
with json.dumps otherwise. -/
def resp (status : Nat) (body : RespBody) : HttpResponse :=
  { statusCode := status
    headers := corsHeaders
    body := match body with
      | .ofStr v => v
      | .ofJson v => Json.dumps v }

/-- The success path of the intake handler after the body has parsed to a
dict with the given fields: extract type and userId with their defaults,
derive pk, sk and the raw object key, build the index item and the raw
envelope, and emit the put_item, the put_object and the 201 response. -/
def intakeStore (tableName rawBucket : String) (now : UTCDateTime)
    (eventId : String) (fields : List (String × Json)) :
    Option HttpResponse × List StorageWrite :=
  let eventType := (getField fields "type").getD (Json.str "unknown")
  let userId := (getField fields "userId").getD (Json.str "anonymous")
  let iso := now.isoformat
  let pk := "USER#" ++ pyStr userId
  let sk := "TS#" ++ iso ++ "#" ++ eventId
  let rawKey :=
    "events/userId=" ++ pyStr userId ++ "/dt=" ++ now.dateStr ++ "/"
      ++ eventId ++ ".json"
  let item : IndexItem :=
    { pk := pk, sk := sk, eventId := eventId, type := eventType,
      createdAt := iso, rawS3Key := rawKey,
      ttl := now.intTimestamp + 30 * 24 * 3600 }
  let rawObj := Json.obj
    [("eventId", Json.str eventId), ("receivedAt", Json.str iso),
     ("payload", Json.obj fields)]
  (some (resp 201 (.ofJson (Json.obj
      [("message", Json.str "Stored"), ("eventId", Json.str eventId),
       ("rawKey", Json.str rawKey)]))),
   [StorageWrite.tablePut tableName item,
    StorageWrite.s3Put rawBucket rawKey (Json.dumps rawObj) "application/json"])

/-- The handler of src/lambda/api/app.py.  The collaborators
base64.b64decode (composed with utf-8 decoding) and json.loads are
parameters returning none where the Python call raises; uuid.uuid4 and
datetime.now(timezone.utc) are the eventId and now parameters.  The first
component is the response (none for an unhandled exception), the second
the storage writes in order. -/
def intakeHandler (tableName rawBucket : String)
    (b64decode : String → Option String) (jsonLoads : String → Option Json)
    (now : UTCDateTime) (eventId : String) (event : IntakeEvent) :
    Option HttpResponse × List StorageWrite :=
  let method := pyUpper (event.method.getD "")
  if method = "OPTIONS" then
    (some (resp 204 (.ofStr "")), [])
  else
    let body0 := event.body.getD ""
    match if event.isBase64Encoded then b64decode body0 else some body0 with
    | none => (none, [])
    | some body =>
      match if body = "" then some (Json.obj []) else jsonLoads body with
      | none =>
          (some (resp 400 (.ofJson (Json.obj
            [("message", Json.str "Invalid JSON body")]))), [])
      | some payload =>
        match payload with
        | Json.obj fields => intakeStore tableName rawBucket now eventId fields
        | _ => (none, [])

/-- One record of the S3 ObjectCreated notification consumed by the
transform handler: the source bucket name and object key. -/
structure S3Record where
  bucket : String
  key : String

/-- The curated dict built in src/lambda/etl/app.py from the fields of the
raw envelope and of its payload. -/
def curatedOf (fields pfields : List (String × Json)) : Json :=
  Json.obj
    [("eventId", (getField fields "eventId").getD Json.null),
     ("receivedAt", (getField fields "receivedAt").getD Json.null),
     ("type", (getField pfields "type").getD (Json.str "unknown")),
     ("userId", (getField pfields "userId").getD (Json.str "anonymous")),
     ("data", (getField pfields "data").getD (Json.obj []))]

/-- The destination key of the transform handler:
src_key.replace("events/", "curated/events/", 1). -/
def dstKey (srcKey : String) : String :=
  pyReplaceFirst srcKey "events/" "curated/events/"

/-- The body of the per-record loop of src/lambda/etl/app.py: fetch the
object, parse it, extract the payload with its empty-dict default, build
the curated record, and emit the put_object to the curated bucket at the
derived key.  none models an unhandled exception (missing object, invalid
JSON, or an attribute error from calling get on a non-dict). -/
def processRecord (curatedBucket : String)
    (getObject : String → String → Option String)
    (jsonLoads : String → Option Json) (r : S3Record) : Option StorageWrite :=
  match getObject r.bucket r.key with
  | none => none
  | some bytes =>
    match jsonLoads bytes with
    | none => none
    | some raw =>
      match raw with
      | Json.obj fields =>
        match (getField fields "payload").getD (Json.obj []) with
        | Json.obj pfields =>
            some (StorageWrite.s3Put curatedBucket (dstKey r.key)
              (Json.dumps (curatedOf fields pfields)) "application/json")
        | _ => none
      | _ => none

/-- The handler of src/lambda/etl/app.py: process the records in order,
abort on the first unhandled exception keeping the writes already made,
and acknowledge with the ok dict once every record is processed. -/
def transformHandler (curatedBucket : String)
    (getObject : String → String → Option String)
    (jsonLoads : String → Option Json) :
    List S3Record → Option Json × List StorageWrite
  | [] => (some (Json.obj [("ok", Json.bool true)]), [])
  | r :: rest =>
    match processRecord curatedBucket getObject jsonLoads r with
    | none => (none, [])
    | some w =>
      let out := transformHandler curatedBucket getObject jsonLoads rest
      (out.1, w :: out.2)

theorem listReplaceFirst_no_occurrence (pat rep : List Char) :
    ∀ s, hasSub pat s = false → listReplaceFirst pat rep s = s := by
  intro s
  induction s with
  | nil =>
    intro h
    simp [hasSub] at h
    simp [listReplaceFirst, h]
  | cons c rest ih =>
    intro h
    simp [hasSub] at h
    simp [listReplaceFirst, h.1, ih h.2]

theorem listReplaceFirst_decomp (pat rep : List Char) (hne : pat ≠ []) :
    ∀ a b, hasSub pat (a ++ pat.dropLast) = false →
      listReplaceFirst pat rep (a ++ pat ++ b) = a ++ rep ++ b := by
  intro a
  induction a with
  | nil =>
    intro b h
    obtain ⟨p, ps, hp⟩ := List.exists_cons_of_ne_nil hne
    subst hp
    have hpre : (p :: ps).isPrefixOf ((p :: ps) ++ b) = true :=
      List.isPrefixOf_iff_prefix.mpr (List.prefix_append _ _)
    simp only [List.nil_append]
    rw [List.cons_append, listReplaceFirst]
    rw [← List.cons_append, hpre]
    simp [List.drop_left]
  | cons c a2 ih =>
    intro b h
    have h2 : pat.isPrefixOf (c :: (a2 ++ pat.dropLast)) = false ∧
        hasSub pat (a2 ++ pat.dropLast) = false := by
      simpa [hasSub] using h
    have hlast := List.dropLast_append_getLast hne
    have hbig : (c :: (a2 ++ pat.dropLast)) <+: (c :: (a2 ++ pat ++ b)) := by
      refine List.cons_prefix_cons.mpr ⟨rfl, ?_⟩
      have he : a2 ++ pat ++ b = (a2 ++ pat.dropLast) ++ ([pat.getLast hne] ++ b) := by
        conv_lhs => rw [← hlast]
        simp [List.append_assoc]
      rw [he]
      exact List.prefix_append _ _
    have hcond : pat.isPrefixOf (c :: (a2 ++ pat ++ b)) = false := by
      by_contra hc
      have hc2 : pat <+: c :: (a2 ++ pat ++ b) :=
        List.isPrefixOf_iff_prefix.mp (Bool.of_not_eq_false hc)
      have hlen : pat.length ≤ (c :: (a2 ++ pat.dropLast)).length := by
        have hp1 : 1 ≤ pat.length := List.length_pos.mpr hne
        simp [List.length_dropLast]
        omega
      have hpref := List.prefix_of_prefix_length_le hc2 hbig hlen
      have hres := List.isPrefixOf_iff_prefix.mpr hpref
      rw [h2.1] at hres
      exact Bool.false_ne_true hres
    show listReplaceFirst pat rep (c :: (a2 ++ pat ++ b)) = c :: (a2 ++ rep ++ b)
    rw [listReplaceFirst,
        if_neg (by intro hh; rw [hcond] at hh; exact Bool.false_ne_true hh)]
    exact congrArg (List.cons c) (ih b h2.2)

theorem intakeHandler_success (tn rb : String) (b64 : String → Option String)
    (l : String → Option Json) (now : UTCDateTime) (eid : String)
    (m : Option String) (flag : Bool) (body0 : Option String) (body : String)
    (pfs : List (String × Json))
    (hm : pyUpper (m.getD "") ≠ "OPTIONS")
    (hdec : (if flag then b64 (body0.getD "") else some (body0.getD "")) = some body)
    (hp : (if body = "" then some (Json.obj []) else l body) = some (Json.obj pfs)) :
    intakeHandler tn rb b64 l now eid ⟨m, flag, body0⟩ =
      intakeStore tn rb now eid pfs := by
  simp [intakeHandler, hm, hdec, hp]

/-- C1: for every envelope fetched by the transform handler whose payload
is a JSON object (or absent, defaulting to the empty object), the curated
record written is exactly the five-field object eventId, receivedAt (from
the envelope), and type, userId, data (from the payload, with defaults
unknown, anonymous and the empty object when the key is absent); and on
the spec's concrete example envelope the handler writes exactly the spec's
stated curated object. -/
theorem C1_curated_record_mapping :
    (∀ (cb : String) (g : String → String → Option String)
       (l : String → Option Json) (r : S3Record) (bytes : String)
       (fields pfields : List (String × Json)),
       g r.bucket r.key = some bytes →
       l bytes = some (Json.obj fields) →
       (getField fields "payload").getD (Json.obj []) = Json.obj pfields →
       processRecord cb g l r = some (StorageWrite.s3Put cb (dstKey r.key)
         (Json.dumps (Json.obj
           [("eventId", (getField fields "eventId").getD Json.null),
            ("receivedAt", (getField fields "receivedAt").getD Json.null),
            ("type", (getField pfields "type").getD (Json.str "unknown")),
            ("userId", (getField pfields "userId").getD (Json.str "anonymous")),
            ("data", (getField pfields "data").getD (Json.obj []))]))
         "application/json"))
    ∧ transformHandler "curated-bucket" (fun _ _ => some "envelope-bytes")
        (fun _ => some (Json.obj
          [("eventId", Json.str "abc"),
           ("receivedAt", Json.str "2024-01-01T00:00:00+00:00"),
           ("payload", Json.obj
             [("type", Json.str "click"), ("userId", Json.str "u1"),
              ("data", Json.obj [("x", Json.num 1)])])]))
        [⟨"raw-bucket", "events/userId=u1/dt=2024-01-01/abc.json"⟩]
      = (some (Json.obj [("ok", Json.bool true)]),
         [StorageWrite.s3Put "curated-bucket"
            "curated/events/userId=u1/dt=2024-01-01/abc.json"
            (Json.dumps (Json.obj
              [("eventId", Json.str "abc"),
               ("receivedAt", Json.str "2024-01-01T00:00:00+00:00"),
               ("type", Json.str "click"), ("userId", Json.str "u1"),
               ("data", Json.obj [("x", Json.num 1)])]))
            "application/json"]) := by
  constructor
  · intro cb g l r bytes fields pfields hg hl hp
    simp [processRecord, hg, hl, hp, curatedOf]
  · rfl

theorem C1_curated_record_mapping_witness :
    processRecord "curated-bucket" (fun _ _ => some "envelope-bytes")
      (fun _ => some (Json.obj [("eventId", Json.str "abc")]))
      ⟨"raw-bucket", "events/k.json"⟩ =
      some (StorageWrite.s3Put "curated-bucket" "curated/events/k.json"
        (Json.dumps (Json.obj
          [("eventId", Json.str "abc"), ("receivedAt", Json.null),
           ("type", Json.str "unknown"), ("userId", Json.str "anonymous"),
           ("data", Json.obj [])]))
        "application/json") :=
  C1_curated_record_mapping.1 "curated-bucket" (fun _ _ => some "envelope-bytes")
    (fun _ => some (Json.obj [("eventId", Json.str "abc")]))
    ⟨"raw-bucket", "events/k.json"⟩ "envelope-bytes"
    [("eventId", Json.str "abc")] [] rfl rfl rfl

/-- C3: the transform handler's destination key is the source key with
only the first occurrence of the literal substring events/ replaced by
curated/events/.  Stated as: every write it emits targets dstKey of the
source key; when the key splits as a ++ events/ ++ b with no occurrence of
events/ before that point, the destination is a ++ curated/events/ ++ b
(so a later second occurrence inside b is untouched); and a key with no
occurrence at all is left unchanged. -/
theorem C3_destination_key_replace_first :
    (∀ (cb : String) (g : String → String → Option String)
       (l : String → Option Json) (r : S3Record) (w : StorageWrite),
       processRecord cb g l r = some w →
       ∃ body ct, w = StorageWrite.s3Put cb (dstKey r.key) body ct)
    ∧ (∀ a b : String,
        hasSub "events/".data (a.data ++ "events".data) = false →
        dstKey (a ++ "events/" ++ b) = a ++ "curated/events/" ++ b)
    ∧ (∀ s : String, hasSub "events/".data s.data = false → dstKey s = s) := by
  refine ⟨?_, ?_, ?_⟩
  · intro cb g l r w h
    unfold processRecord at h
    repeat' split at h
    all_goals first
      | (injection h with h2; exact ⟨_, _, h2.symm⟩)
      | injection h
  · intro a b hclean
    have hne : "events/".data ≠ [] := by decide
    have h2 : hasSub "events/".data (a.data ++ ("events/".data).dropLast) = false := by
      have hd : ("events/".data).dropLast = "events".data := by decide
      rw [hd]
      exact hclean
    have hrw := listReplaceFirst_decomp "events/".data "curated/events/".data hne
      a.data b.data h2
    show String.mk (listReplaceFirst "events/".data "curated/events/".data
        (a.data ++ "events/".data ++ b.data)) = a ++ "curated/events/" ++ b
    rw [hrw]
    rfl
  · intro s hs
    show String.mk (listReplaceFirst "events/".data "curated/events/".data s.data) = s
    rw [listReplaceFirst_no_occurrence _ _ _ hs]

theorem C3_destination_key_replace_first_witness :
    dstKey "events/userId=u1/events/x.json" = "curated/events/userId=u1/events/x.json"
    ∧ dstKey "nomatch" = "nomatch" :=
  ⟨C3_destination_key_replace_first.2.1 "" "userId=u1/events/x.json" (by decide),
   C3_destination_key_replace_first.2.2 "nomatch" (by decide)⟩

/-- C10: when the fetched envelope is a JSON object in which the top-level
eventId key or the receivedAt key (or both) is absent (payload an object
or absent), the transform handler does not raise: it writes the curated
record, the slot of every absent key among the two is JSON null rather
than any string default, and at least one of the two slots is null. -/
theorem C10_missing_ids_null :
    ∀ (cb : String) (g : String → String → Option String)
      (l : String → Option Json) (r : S3Record) (bytes : String)
      (fields pfields : List (String × Json)),
      g r.bucket r.key = some bytes →
      l bytes = some (Json.obj fields) →
      (getField fields "payload").getD (Json.obj []) = Json.obj pfields →
      getField fields "eventId" = none ∨ getField fields "receivedAt" = none →
      ∃ e rc,
        processRecord cb g l r = some (StorageWrite.s3Put cb (dstKey r.key)
          (Json.dumps (Json.obj
            [("eventId", e), ("receivedAt", rc),
             ("type", (getField pfields "type").getD (Json.str "unknown")),
             ("userId", (getField pfields "userId").getD (Json.str "anonymous")),
             ("data", (getField pfields "data").getD (Json.obj []))]))
          "application/json")
        ∧ (getField fields "eventId" = none → e = Json.null)
        ∧ (getField fields "receivedAt" = none → rc = Json.null)
        ∧ (e = Json.null ∨ rc = Json.null) := by
  intro cb g l r bytes fields pfields hg hl hp hd
  refine ⟨(getField fields "eventId").getD Json.null,
          (getField fields "receivedAt").getD Json.null, ?_, ?_, ?_, ?_⟩
  · simp [processRecord, hg, hl, hp, curatedOf]
  · intro he
    simp [he]
  · intro hr
    simp [hr]
  · rcases hd with h | h
    · left
      simp [h]
    · right
      simp [h]

theorem C10_missing_ids_null_witness :
    ∃ e rc,
      processRecord "cb" (fun _ _ => some "b")
        (fun _ => some (Json.obj
          [("receivedAt", Json.str "2024-01-01T00:00:00+00:00"),
           ("payload", Json.obj [("userId", Json.str "u1")])]))
        ⟨"rb", "events/k.json"⟩ =
        some (StorageWrite.s3Put "cb" "curated/events/k.json"
          (Json.dumps (Json.obj
            [("eventId", e), ("receivedAt", rc),
             ("type", Json.str "unknown"), ("userId", Json.str "u1"),
             ("data", Json.obj [])]))
          "application/json")
      ∧ (getField [("receivedAt", Json.str "2024-01-01T00:00:00+00:00"),
           ("payload", Json.obj [("userId", Json.str "u1")])] "eventId" = none →
          e = Json.null)
      ∧ (getField [("receivedAt", Json.str "2024-01-01T00:00:00+00:00"),
           ("payload", Json.obj [("userId", Json.str "u1")])] "receivedAt" = none →
          rc = Json.null)
      ∧ (e = Json.null ∨ rc = Json.null) :=
  C10_missing_ids_null "cb" (fun _ _ => some "b")
    (fun _ => some (Json.obj
      [("receivedAt", Json.str "2024-01-01T00:00:00+00:00"),
       ("payload", Json.obj [("userId", Json.str "u1")])]))
    ⟨"rb", "events/k.json"⟩ "b"
    [("receivedAt", Json.str "2024-01-01T00:00:00+00:00"),
     ("payload", Json.obj [("userId", Json.str "u1")])]
    [("userId", Json.str "u1")] rfl rfl rfl (Or.inl rfl)

/-- C2: a successful intake call on a body that parses to a JSON object
with userId u (defaulting to anonymous when the key is absent) produces
the 201 response carrying the eventId and the raw key, a table put of the
index record with pk USER#u, sk TS#<isoformat>#<eventId> and rawS3Key
events/userId=u/dt=<UTC date>/<eventId>.json, and the raw-envelope
put_object at that same key. -/
theorem C2_index_record_shape :
    ∀ (tn rb : String) (b64 : String → Option String) (l : String → Option Json)
      (now : UTCDateTime) (eid : String) (m : Option String) (body : String)
      (pfs : List (String × Json)) (u : String),
      pyUpper (m.getD "") ≠ "OPTIONS" →
      body ≠ "" →
      l body = some (Json.obj pfs) →
      (getField pfs "userId" = some (Json.str u) ∨
        (getField pfs "userId" = none ∧ u = "anonymous")) →
      intakeHandler tn rb b64 l now eid ⟨m, false, some body⟩ =
        (some (resp 201 (.ofJson (Json.obj
           [("message", Json.str "Stored"), ("eventId", Json.str eid),
            ("rawKey", Json.str ("events/userId=" ++ u ++ "/dt=" ++ now.dateStr
              ++ "/" ++ eid ++ ".json"))]))),
         [StorageWrite.tablePut tn
            { pk := "USER#" ++ u,
              sk := "TS#" ++ now.isoformat ++ "#" ++ eid,
              eventId := eid,
              type := (getField pfs "type").getD (Json.str "unknown"),
              createdAt := now.isoformat,
              rawS3Key := "events/userId=" ++ u ++ "/dt=" ++ now.dateStr
                ++ "/" ++ eid ++ ".json",
              ttl := now.intTimestamp + 30 * 24 * 3600 },
          StorageWrite.s3Put rb ("events/userId=" ++ u ++ "/dt=" ++ now.dateStr
              ++ "/" ++ eid ++ ".json")
            (Json.dumps (Json.obj [("eventId", Json.str eid),
              ("receivedAt", Json.str now.isoformat), ("payload", Json.obj pfs)]))
            "application/json"]) := by
  intro tn rb b64 l now eid m body pfs u hm hb hl hu
  have hueq : (getField pfs "userId").getD (Json.str "anonymous") = Json.str u := by
    rcases hu with h | ⟨h, rfl⟩ <;> simp [h]
  simp [intakeHandler, hm, hb, hl, intakeStore, hueq, pyStr]

theorem C2_index_record_shape_witness :
    intakeHandler "t" "raw" some (fun _ => some (Json.obj [("userId", Json.str "u1")]))
        ⟨2024, 1, 1, 0, 0, 0, 0⟩ "abc" ⟨some "POST", false, some "x"⟩ =
      (some (resp 201 (.ofJson (Json.obj
         [("message", Json.str "Stored"), ("eventId", Json.str "abc"),
          ("rawKey", Json.str "events/userId=u1/dt=2024-01-01/abc.json")]))),
       [StorageWrite.tablePut "t"
          { pk := "USER#u1", sk := "TS#2024-01-01T00:00:00+00:00#abc",
            eventId := "abc", type := Json.str "unknown",
            createdAt := "2024-01-01T00:00:00+00:00",
            rawS3Key := "events/userId=u1/dt=2024-01-01/abc.json",
            ttl := 1704067200 + 2592000 },
        StorageWrite.s3Put "raw" "events/userId=u1/dt=2024-01-01/abc.json"
          (Json.dumps (Json.obj [("eventId", Json.str "abc"),
            ("receivedAt", Json.str "2024-01-01T00:00:00+00:00"),
            ("payload", Json.obj [("userId", Json.str "u1")])]))
          "application/json"]) :=
  C2_index_record_shape "t" "raw" some
    (fun _ => some (Json.obj [("userId", Json.str "u1")]))
    ⟨2024, 1, 1, 0, 0, 0, 0⟩ "abc" (some "POST") "x"
    [("userId", Json.str "u1")] "u1"
    (by decide) (by decide) rfl (Or.inl rfl)

/-- C4: a non-OPTIONS request whose decoded body is non-empty and fails to
parse as JSON gets the 400 response whose body is the serialised message
object Invalid JSON body, and no storage write at all is performed. -/
theorem C4_invalid_json_no_side_effects :
    ∀ (tn rb : String) (b64 : String → Option String) (l : String → Option Json)
      (now : UTCDateTime) (eid : String) (m : Option String) (flag : Bool)
      (body0 : Option String) (body : String),
      pyUpper (m.getD "") ≠ "OPTIONS" →
      (if flag then b64 (body0.getD "") else some (body0.getD "")) = some body →
      body ≠ "" →
      l body = none →
      intakeHandler tn rb b64 l now eid ⟨m, flag, body0⟩ =
        (some (resp 400 (.ofJson (Json.obj
          [("message", Json.str "Invalid JSON body")]))), []) := by
  intro tn rb b64 l now eid m flag body0 body hm hdec hb hl
  simp [intakeHandler, hm, hdec, hb, hl, resp]

theorem C4_invalid_json_no_side_effects_witness :
    intakeHandler "t" "raw" some (fun _ => none) ⟨2024, 1, 1, 0, 0, 0, 0⟩ "abc"
        ⟨some "POST", false, some "not json"⟩ =
      (some (resp 400 (.ofJson (Json.obj
        [("message", Json.str "Invalid JSON body")]))), []) :=
  C4_invalid_json_no_side_effects "t" "raw" some (fun _ => none)
    ⟨2024, 1, 1, 0, 0, 0, 0⟩ "abc" (some "POST") false (some "not json")
    "not json" (by decide) rfl (by decide) rfl

/-- C5: on every successful intake call the index record stores
createdAt = now.isoformat and ttl = int(now.timestamp()) + 2592000,
exactly thirty days of seconds past the createdAt instant. -/
theorem C5_ttl_thirty_days :
    ∀ (tn rb : String) (b64 : String → Option String) (l : String → Option Json)
      (now : UTCDateTime) (eid : String) (m : Option String) (body : String)
      (pfs : List (String × Json)),
      pyUpper (m.getD "") ≠ "OPTIONS" →
      body ≠ "" →
      l body = some (Json.obj pfs) →
      ∃ item rest,
        (intakeHandler tn rb b64 l now eid ⟨m, false, some body⟩).2 =
          StorageWrite.tablePut tn item :: rest ∧
        item.createdAt = now.isoformat ∧
        item.ttl = now.intTimestamp + 2592000 := by
  intro tn rb b64 l now eid m body pfs hm hb hl
  have h := intakeHandler_success tn rb b64 l now eid m false (some body) body pfs
    hm (by simp) (by simp [hb, hl])
  rw [h]
  exact ⟨_, _, rfl, rfl, rfl⟩

theorem C5_ttl_thirty_days_witness :
    ∃ item rest,
      (intakeHandler "t" "raw" some (fun _ => some (Json.obj []))
          ⟨2024, 1, 1, 0, 0, 0, 0⟩ "abc" ⟨some "POST", false, some "x"⟩).2 =
        StorageWrite.tablePut "t" item :: rest ∧
      item.createdAt = "2024-01-01T00:00:00+00:00" ∧
      item.ttl = 1704067200 + 2592000 :=
  C5_ttl_thirty_days "t" "raw" some (fun _ => some (Json.obj []))
    ⟨2024, 1, 1, 0, 0, 0, 0⟩ "abc" (some "POST") "x" []
    (by decide) (by decide) rfl

/-- C6: a request whose method is OPTIONS gets status 204 with the empty
string body and the four CORS headers, whatever the flag and body, and no
storage write is performed. -/
theorem C6_options_preflight :
    ∀ (tn rb : String) (b64 : String → Option String) (l : String → Option Json)
      (now : UTCDateTime) (eid : String) (flag : Bool) (body : Option String),
      intakeHandler tn rb b64 l now eid ⟨some "OPTIONS", flag, body⟩ =
        (some { statusCode := 204,
                headers := [("content-type", "application/json"),
                            ("access-control-allow-origin", "*"),
                            ("access-control-allow-methods", "GET,POST,OPTIONS"),
                            ("access-control-allow-headers", "content-type,authorization")],
                body := "" }, []) := by
  intro tn rb b64 l now eid flag body
  have hopt : pyUpper "OPTIONS" = "OPTIONS" := rfl
  simp [intakeHandler, hopt, resp, corsHeaders]

/-- C7: a non-OPTIONS request whose body decodes to the empty string
(missing, null or empty, base64-decoded or not) is treated as the empty
JSON object: the call succeeds with 201, type unknown, userId anonymous,
and both storage writes happen. -/
theorem C7_empty_body_as_empty_object :
    ∀ (tn rb : String) (b64 : String → Option String) (l : String → Option Json)
      (now : UTCDateTime) (eid : String) (m : Option String) (flag : Bool)
      (body0 : Option String),
      pyUpper (m.getD "") ≠ "OPTIONS" →
      (if flag then b64 (body0.getD "") else some (body0.getD "")) = some "" →
      intakeHandler tn rb b64 l now eid ⟨m, flag, body0⟩ =
        (some (resp 201 (.ofJson (Json.obj
           [("message", Json.str "Stored"), ("eventId", Json.str eid),
            ("rawKey", Json.str ("events/userId=anonymous/dt=" ++ now.dateStr
              ++ "/" ++ eid ++ ".json"))]))),
         [StorageWrite.tablePut tn
            { pk := "USER#anonymous",
              sk := "TS#" ++ now.isoformat ++ "#" ++ eid,
              eventId := eid,
              type := Json.str "unknown",
              createdAt := now.isoformat,
              rawS3Key := "events/userId=anonymous/dt=" ++ now.dateStr
                ++ "/" ++ eid ++ ".json",
              ttl := now.intTimestamp + 30 * 24 * 3600 },
          StorageWrite.s3Put rb ("events/userId=anonymous/dt=" ++ now.dateStr
              ++ "/" ++ eid ++ ".json")
            (Json.dumps (Json.obj [("eventId", Json.str eid),
              ("receivedAt", Json.str now.isoformat), ("payload", Json.obj [])]))
            "application/json"]) := by
  intro tn rb b64 l now eid m flag body0 hm hdec
  simp [intakeHandler, hm, hdec, intakeStore, getField, pyStr]

theorem C7_empty_body_as_empty_object_witness :
    intakeHandler "t" "raw" some (fun _ => none) ⟨2024, 1, 1, 0, 0, 0, 0⟩ "abc"
        ⟨some "POST", false, none⟩ =
      (some (resp 201 (.ofJson (Json.obj
         [("message", Json.str "Stored"), ("eventId", Json.str "abc"),
          ("rawKey", Json.str "events/userId=anonymous/dt=2024-01-01/abc.json")]))),
       [StorageWrite.tablePut "t"
          { pk := "USER#anonymous", sk := "TS#2024-01-01T00:00:00+00:00#abc",
            eventId := "abc", type := Json.str "unknown",
            createdAt := "2024-01-01T00:00:00+00:00",
            rawS3Key := "events/userId=anonymous/dt=2024-01-01/abc.json",
            ttl := 1704067200 + 2592000 },
        StorageWrite.s3Put "raw" "events/userId=anonymous/dt=2024-01-01/abc.json"
          (Json.dumps (Json.obj [("eventId", Json.str "abc"),
            ("receivedAt", Json.str "2024-01-01T00:00:00+00:00"),
            ("payload", Json.obj [])]))
          "application/json"]) :=
  C7_empty_body_as_empty_object "t" "raw" some (fun _ => none)
    ⟨2024, 1, 1, 0, 0, 0, 0⟩ "abc" (some "POST") false none (by decide) rfl

/-- C8: every response the intake handler returns (preflight, success or
client error) carries exactly the four CORS headers in the resp helper,
and the resp helper passes a string body through unchanged while
serialising any other body with json.dumps. -/
theorem C8_response_contract :
    (∀ (tn rb : String) (b64 : String → Option String) (l : String → Option Json)
       (now : UTCDateTime) (eid : String) (ev : IntakeEvent) (r : HttpResponse),
       (intakeHandler tn rb b64 l now eid ev).1 = some r →
       r.headers = [("content-type", "application/json"),
                    ("access-control-allow-origin", "*"),
                    ("access-control-allow-methods", "GET,POST,OPTIONS"),
                    ("access-control-allow-headers", "content-type,authorization")])
    ∧ (∀ (status : Nat) (v : String), (resp status (.ofStr v)).body = v)
    ∧ (∀ (status : Nat) (v : Json), (resp status (.ofJson v)).body = Json.dumps v) := by
  refine ⟨?_, fun _ _ => rfl, fun _ _ => rfl⟩
  intro tn rb b64 l now eid ev r
  simp only [intakeHandler, intakeStore]
  repeat' split
  all_goals intro h
  all_goals first
    | (injection h with h2; subst h2; rfl)
    | injection h

theorem C8_response_contract_witness :
    ({ statusCode := 204, headers := corsHeaders, body := "" } : HttpResponse).headers =
      [("content-type", "application/json"),
       ("access-control-allow-origin", "*"),
       ("access-control-allow-methods", "GET,POST,OPTIONS"),
       ("access-control-allow-headers", "content-type,authorization")] :=
  C8_response_contract.1 "t" "raw" some (fun _ => none) ⟨2024, 1, 1, 0, 0, 0, 0⟩
    "abc" ⟨some "OPTIONS", false, none⟩
    { statusCode := 204, headers := corsHeaders, body := "" } rfl

/-- C9 counterexample: the method string options is not the string
OPTIONS, yet a request carrying it with a valid JSON object body is
answered with the 204 preflight response and no storage write, not with a
201 and two writes: the code uppercases the method before comparing. -/
theorem C9_counterexample_lowercase_method :
    intakeHandler "t" "raw" some (fun _ => some (Json.obj [("userId", Json.str "u1")]))
        ⟨2024, 1, 1, 0, 0, 0, 0⟩ "abc" ⟨some "options", false, some "x"⟩ =
      (some { statusCode := 204, headers := corsHeaders, body := "" }, [])
    ∧ some "options" ≠ some "OPTIONS" :=
  ⟨rfl, by decide⟩

/-- C9 amended: the intake handler does not discriminate on the HTTP
method beyond the case-insensitive test for OPTIONS: any two methods whose
uppercased forms are not OPTIONS (GET, DELETE, the empty string, an absent
field, ...) give identical outcomes, and with a body that parses to a JSON
object the outcome is the 201 response together with exactly the table put
and the raw-bucket put. -/
theorem C9_method_insensitive_processing :
    ∀ (tn rb : String) (b64 : String → Option String) (l : String → Option Json)
      (now : UTCDateTime) (eid : String) (m1 m2 : Option String) (flag : Bool)
      (body0 : Option String),
      pyUpper (m1.getD "") ≠ "OPTIONS" →
      pyUpper (m2.getD "") ≠ "OPTIONS" →
      (intakeHandler tn rb b64 l now eid ⟨m1, flag, body0⟩ =
        intakeHandler tn rb b64 l now eid ⟨m2, flag, body0⟩)
      ∧ (∀ (body : String) (pfs : List (String × Json)),
          (if flag then b64 (body0.getD "") else some (body0.getD "")) = some body →
          body ≠ "" →
          l body = some (Json.obj pfs) →
          ∃ item s3key s3body,
            intakeHandler tn rb b64 l now eid ⟨m1, flag, body0⟩ =
              (some (resp 201 (.ofJson (Json.obj
                [("message", Json.str "Stored"), ("eventId", Json.str eid),
                 ("rawKey", Json.str s3key)]))),
               [StorageWrite.tablePut tn item,
                StorageWrite.s3Put rb s3key s3body "application/json"])) := by
  intro tn rb b64 l now eid m1 m2 flag body0 h1 h2
  constructor
  · simp [intakeHandler, h1, h2]
  · intro body pfs hdec hb hl
    have h := intakeHandler_success tn rb b64 l now eid m1 flag body0 body pfs
      h1 hdec (by simp [hb, hl])
    rw [h]
    exact ⟨_, _, _, rfl⟩

theorem C9_method_insensitive_processing_witness :
    (intakeHandler "t" "raw" some (fun _ => some (Json.obj []))
        ⟨2024, 1, 1, 0, 0, 0, 0⟩ "abc" ⟨some "GET", false, some "x"⟩ =
      intakeHandler "t" "raw" some (fun _ => some (Json.obj []))
        ⟨2024, 1, 1, 0, 0, 0, 0⟩ "abc" ⟨some "DELETE", false, some "x"⟩)
    ∧ (∃ item s3key s3body,
        intakeHandler "t" "raw" some (fun _ => some (Json.obj []))
            ⟨2024, 1, 1, 0, 0, 0, 0⟩ "abc" ⟨some "GET", false, some "x"⟩ =
          (some (resp 201 (.ofJson (Json.obj
            [("message", Json.str "Stored"), ("eventId", Json.str "abc"),
             ("rawKey", Json.str s3key)]))),
           [StorageWrite.tablePut "t" item,
            StorageWrite.s3Put "raw" s3key s3body "application/json"])) := by
  have h := C9_method_insensitive_processing "t" "raw" some
    (fun _ => some (Json.obj [])) ⟨2024, 1, 1, 0, 0, 0, 0⟩ "abc"
    (some "GET") (some "DELETE") false (some "x") (by decide) (by decide)
  exact ⟨h.1, h.2 "x" [] rfl (by decide) rfl⟩
